import Mathlib

/-!
Verification development for the py-azcopy-wrapper repository.

The Python sources under azcopy_wrapper/ (azcopy_client.py, azcopy_utilities.py)
are shallowly embedded below.  Python strings become Lean String, the external
line-producing process becomes an explicit LineStream value, the external
SAS-expiry predicate becomes a function parameter (it is time dependent, so the
two moments at which the client consults it are separate parameters), and
raising becomes an Except error value carrying the exception message together
with the JobInfo state at raise time (when one exists).
-/

set_option maxRecDepth 10000

/-! ## Python string primitives -/

/-- Whitespace characters removed by Python str.strip / str.rstrip. -/
def isPyWs (c : Char) : Bool :=
  c == ' ' || c == '\t' || c == '\n' || c == '\r' || c == '\x0b' || c == '\x0c'

/-- Model of Python str.strip(). -/
def pyStrip (s : String) : String :=
  ⟨((s.data.dropWhile isPyWs).reverse.dropWhile isPyWs).reverse⟩

/-- Model of Python str.rstrip(). -/
def pyRstrip (s : String) : String :=
  ⟨(s.data.reverse.dropWhile isPyWs).reverse⟩

/-- Model of Python str.lower() (ASCII range, which is all the client compares). -/
def pyLower (s : String) : String :=
  ⟨s.data.map Char.toLower⟩

/-- Model of Python s.replace(c, "") for a one-character needle: every
occurrence of the character is removed. -/
def pyRemoveChar (s : String) (c : Char) : String :=
  ⟨s.data.filter (fun x => !(x == c))⟩

/-- Model of Python membership test of a one-character needle: c in s. -/
def strContainsChar (s : String) (c : Char) : Bool :=
  decide (c ∈ s.data)

/-- Model of Python substring membership: pat in s. -/
def strContains (s pat : String) : Bool :=
  decide (pat.data <:+: s.data)

/-- Model of Python s.startswith(pat). -/
def strStartsWith (s pat : String) : Bool :=
  decide (pat.data <+: s.data)

/-- Model of Python s.endswith(pat). -/
def strEndsWith (s pat : String) : Bool :=
  decide (pat.data <:+ s.data)

/-- Drop the first n characters of a string. -/
def strDrop (s : String) (n : Nat) : String :=
  ⟨s.data.drop n⟩

/-- Helper for splitting on a separator character, accumulating the current
piece in reverse. -/
def splitCharAux (c : Char) : List Char → List Char → List (List Char)
  | [], acc => [acc.reverse]
  | x :: xs, acc =>
    if x == c then acc.reverse :: splitCharAux c xs []
    else splitCharAux c xs (x :: acc)

/-- Model of Python s.split(sep) for a one-character separator (the client only
splits on a colon and on a newline). -/
def pySplitChar (c : Char) (s : String) : List String :=
  (splitCharAux c s.data []).map (fun l => ⟨l⟩)

/-- Model of Python output_line.split(":")[-1].strip(), used to extract the
terminal status text. -/
def pyLastColonField (s : String) : String :=
  pyStrip ((pySplitChar ':' s).getLastD "")

/-- Numeric value of a list of decimal digit characters. -/
def digitsToNat (cs : List Char) : Nat :=
  cs.foldl (fun n c => n * 10 + (c.toNat - 48)) 0

/-- Model of Python int(s) on a string of pure digits; anything else fails. -/
def parseNatDigits (cs : List Char) : Option Nat :=
  if cs ≠ [] ∧ cs.all Char.isDigit then some (digitsToNat cs) else none

/-- Numeric value denoted by "d1.d2", as produced by Python float() on the
text matched by the percentage pattern. -/
def pyFloatOfDigits (d1 d2 : List Char) : Rat :=
  (digitsToNat d1 : Rat) + (digitsToNat d2 : Rat) / (10 : Rat) ^ d2.length

/-- Model of re.match applied to the percentage pattern: one or more digits, a
dot, one or more digits, then the three characters space/percent/comma, all
anchored at the start of the line.  Greedy digit runs are exact here because
the characters after each run cannot extend it.  Returns the float value of
the matched group when the line matches. -/
def matchPercent (s : String) : Option Rat :=
  match s.data.takeWhile Char.isDigit, s.data.dropWhile Char.isDigit with
  | [], _ => none
  | d1, '.' :: r2 =>
    if r2.takeWhile Char.isDigit ≠ [] ∧ [' ', '%', ','] <+: r2.dropWhile Char.isDigit then
      some (pyFloatOfDigits d1 (r2.takeWhile Char.isDigit))
    else none
  | _, _ => none

/-- Model of "\n".join(lines). -/
def joinWithNewline : List String → String
  | [] => ""
  | [x] => x
  | x :: y :: xs => x ++ "\n" ++ joinWithNewline (y :: xs)

/-! ## JSON values and a model of Python json.loads

The list operation decodes NDJSON lines with json.loads.  The decoder below
covers the JSON forms the external tool emits (objects, arrays, strings with
the simple escapes, numbers, literals); a line it cannot decode corresponds to
a json.JSONDecodeError. -/

inductive PyJson where
  | null
  | jbool (b : Bool)
  | num (q : Rat)
  | str (s : String)
  | arr (xs : List PyJson)
  | obj (fields : List (String × PyJson))

/-- JSON whitespace accepted between tokens by json.loads. -/
def skipWs (cs : List Char) : List Char :=
  cs.dropWhile (fun c => c == ' ' || c == '\t' || c == '\n' || c == '\r')

/-- Body of a JSON string after the opening quote, with the accumulated
characters in reverse; stops at the closing quote. -/
def parseStringBody : List Char → List Char → Option (String × List Char)
  | [], _ => none
  | '"' :: rest, acc => some (⟨acc.reverse⟩, rest)
  | '\\' :: e :: rest, acc =>
    if e == '"' then parseStringBody rest ('"' :: acc)
    else if e == '\\' then parseStringBody rest ('\\' :: acc)
    else if e == '/' then parseStringBody rest ('/' :: acc)
    else if e == 'b' then parseStringBody rest ('\x08' :: acc)
    else if e == 'f' then parseStringBody rest ('\x0c' :: acc)
    else if e == 'n' then parseStringBody rest ('\n' :: acc)
    else if e == 'r' then parseStringBody rest ('\r' :: acc)
    else if e == 't' then parseStringBody rest ('\t' :: acc)
    else none
  | ['\\'], _ => none
  | c :: rest, acc =>
    if c.toNat < 32 then none else parseStringBody rest (c :: acc)

/-- Exponent suffix of a JSON number, after the e/E marker. -/
def parseExpTail (base : Rat) (cs : List Char) : Option (PyJson × List Char) :=
  let signAndRest : Int × List Char :=
    match cs with
    | '+' :: r => (1, r)
    | '-' :: r => (-1, r)
    | _ => (1, cs)
  let ds := signAndRest.2.takeWhile Char.isDigit
  if ds = [] then none
  else
    let e : Nat := digitsToNat ds
    let factor : Rat := if signAndRest.1 = 1 then (10 : Rat) ^ e else ((10 : Rat) ^ e)⁻¹
    some (.num (base * factor), signAndRest.2.dropWhile Char.isDigit)

/-- Optional exponent part of a JSON number. -/
def parseExp (base : Rat) (cs : List Char) : Option (PyJson × List Char) :=
  match cs with
  | 'e' :: r => parseExpTail base r
  | 'E' :: r => parseExpTail base r
  | _ => some (.num base, cs)

/-- JSON number at the head of the input (json.loads syntax: optional minus,
integer part without spurious leading zeros, optional fraction, optional
exponent). -/
def parseNumber (cs : List Char) : Option (PyJson × List Char) :=
  let signAndRest : Bool × List Char :=
    match cs with
    | '-' :: r => (true, r)
    | _ => (false, cs)
  let ip := signAndRest.2.takeWhile Char.isDigit
  let r1 := signAndRest.2.dropWhile Char.isDigit
  if ip = [] then none
  else if 1 < ip.length ∧ ip.headD '0' = '0' then none
  else
    let sgn : Rat := if signAndRest.1 then -1 else 1
    match r1 with
    | '.' :: r2 =>
      let fp := r2.takeWhile Char.isDigit
      if fp = [] then none
      else parseExp (sgn * pyFloatOfDigits ip fp) (r2.dropWhile Char.isDigit)
    | _ => parseExp (sgn * (digitsToNat ip : Rat)) r1

mutual

/-- JSON value at the head of the input; the fuel bounds nesting and member
counts and is instantiated generously from the input length. -/
def parseValue : Nat → List Char → Option (PyJson × List Char)
  | 0, _ => none
  | Nat.succ fuel, cs =>
    match skipWs cs with
    | [] => none
    | '"' :: rest =>
      match parseStringBody rest [] with
      | some (s, rest2) => some (.str s, rest2)
      | none => none
    | '\x7b' :: rest =>
      (match skipWs rest with
       | '\x7d' :: rest2 => some (.obj [], rest2)
       | _ =>
         match parseMembers fuel rest [] with
         | some (fs, rest2) => some (.obj fs, rest2)
         | none => none)
    | '[' :: rest =>
      (match skipWs rest with
       | ']' :: rest2 => some (.arr [], rest2)
       | _ =>
         match parseItems fuel rest [] with
         | some (xs, rest2) => some (.arr xs, rest2)
         | none => none)
    | c :: rest =>
      if ['n', 'u', 'l', 'l'] <+: (c :: rest) then some (.null, (c :: rest).drop 4)
      else if ['t', 'r', 'u', 'e'] <+: (c :: rest) then some (.jbool true, (c :: rest).drop 4)
      else if ['f', 'a', 'l', 's', 'e'] <+: (c :: rest) then some (.jbool false, (c :: rest).drop 5)
      else parseNumber (c :: rest)

/-- Members of a JSON object, after the opening brace. -/
def parseMembers : Nat → List Char → List (String × PyJson) →
    Option (List (String × PyJson) × List Char)
  | 0, _, _ => none
  | Nat.succ fuel, cs, acc =>
    match skipWs cs with
    | '"' :: rest =>
      (match parseStringBody rest [] with
       | some (k, rest2) =>
         (match skipWs rest2 with
          | ':' :: rest3 =>
            (match parseValue fuel rest3 with
             | some (v, rest4) =>
               (match skipWs rest4 with
                | ',' :: rest5 => parseMembers fuel rest5 (acc ++ [(k, v)])
                | '\x7d' :: rest5 => some (acc ++ [(k, v)], rest5)
                | _ => none)
             | none => none)
          | _ => none)
       | none => none)
    | _ => none

/-- Items of a JSON array, after the opening bracket. -/
def parseItems : Nat → List Char → List PyJson → Option (List PyJson × List Char)
  | 0, _, _ => none
  | Nat.succ fuel, cs, acc =>
    match parseValue fuel cs with
    | some (v, rest) =>
      (match skipWs rest with
       | ',' :: rest2 => parseItems fuel rest2 (acc ++ [v])
       | ']' :: rest2 => some (acc ++ [v], rest2)
       | _ => none)
    | none => none

end

/-- Model of Python json.loads: the whole string must be one JSON value, with
whitespace allowed around it. -/
def jsonLoads (s : String) : Option PyJson :=
  match parseValue (2 * s.data.length + 2) s.data with
  | some (v, rest) => if skipWs rest = [] then some v else none
  | none => none

/-- Model of Python dict.get(key) on a decoded object: json.loads keeps the
last binding of a repeated key; on a non-object there is no binding. -/
def jsonGet (v : PyJson) (key : String) : Option PyJson :=
  match v with
  | .obj fields => ((fields.filter (fun kv => kv.1 == key)).getLast?).map (fun kv => kv.2)
  | _ => none

/-- Model of Python truthiness of a decoded JSON value. -/
def jsonTruthy : PyJson → Bool
  | .null => false
  | .jbool b => b
  | .num q => !(q == 0)
  | .str s => !(s == "")
  | .arr xs => !xs.isEmpty
  | .obj fs => !fs.isEmpty

/-! ## Data model (azcopy_utilities.py) -/

/-- Embedding of azcopy_utilities.AzRemoteSASLocation's data fields.  The
constructor-time expiry check is azRemoteSASLocationInit below. -/
structure AzRemoteSASLocation where
  storage_account : String := ""
  container : String := ""
  path : String := ""
  use_wildcard : Bool := false
  sas_token : String := ""
  location_type : Option String := none
deriving DecidableEq

/-- Embedding of azcopy_utilities.AzLocalLocation. -/
structure AzLocalLocation where
  path : String := ""
  use_wildcard : Bool := false
  location_type : Option String := none
deriving DecidableEq

/-- Embedding of AzRemoteSASLocation.get_resource_uri. -/
def getResourceUri (l : AzRemoteSASLocation) : String :=
  "https://" ++ l.storage_account ++ ".blob.core.windows.net/" ++ l.container ++ "/"

/-- Embedding of AzRemoteSASLocation.__init__: with a nonempty SAS token the
external expiry predicate is consulted and an expired token raises before the
object exists.  The predicate is a parameter, per the spec's external
SAS-expiry contract. -/
def azRemoteSASLocationInit (expired : String → Bool)
    (storage_account container path : String) (use_wildcard : Bool)
    (sas_token : String) (location_type : Option String) :
    Except String AzRemoteSASLocation :=
  if 0 < sas_token.length then
    if expired sas_token then .error "SAS token is expired"
    else .ok ⟨storage_account, container, path, use_wildcard, sas_token, location_type⟩
  else .ok ⟨storage_account, container, path, use_wildcard, sas_token, location_type⟩

/-- Embedding of AzRemoteSASLocation.__str__: with a nonempty SAS token the
expiry predicate is consulted again at stringification time, and an expired
token raises instead of rendering the URL. -/
def azRemoteStr (expired : String → Bool) (l : AzRemoteSASLocation) :
    Except String String :=
  if 0 < l.sas_token.length then
    if expired l.sas_token then .error "SAS token is expired"
    else .ok (getResourceUri l ++ l.path ++ (if l.use_wildcard then "*" else "") ++ "?" ++ l.sas_token)
  else .ok (getResourceUri l ++ l.path ++ (if l.use_wildcard then "*" else "") ++ "?" ++ l.sas_token)

/-- Embedding of AzLocalLocation.__str__. -/
def azLocalStr (l : AzLocalLocation) : String :=
  l.path ++ (if l.use_wildcard then "*" else "")

/-- Source or destination of a transfer: Union[AzRemoteSASLocation, AzLocalLocation]. -/
inductive AzEndpoint where
  | remote (l : AzRemoteSASLocation)
  | localLoc (l : AzLocalLocation)
deriving DecidableEq

/-- Rendering str(endpoint), which can raise for a remote location. -/
def renderEndpoint (expired : String → Bool) : AzEndpoint → Except String String
  | .remote l => azRemoteStr expired l
  | .localLoc l => .ok (azLocalStr l)

/-- Embedding of azcopy_utilities.AzCopyOptions. -/
structure AzCopyOptions where
  overwrite_existing : Bool := false
  recursive : Bool := false
  put_md5 : Bool := false
  exclude_path : String := ""
deriving DecidableEq

/-- Embedding of AzCopyOptions.get_options_list. -/
def AzCopyOptions.get_options_list (o : AzCopyOptions) : List String :=
  (if o.recursive then ["--recursive"] else [])
    ++ (if !o.overwrite_existing then ["--overwrite", "false"] else [])
    ++ (if o.put_md5 then ["--put-md5"] else [])
    ++ (if 0 < o.exclude_path.length then ["--exclude-path", o.exclude_path] else [])

/-- Embedding of azcopy_utilities.AzSyncOptions. -/
structure AzSyncOptions where
  recursive : Bool := false
  put_md5 : Bool := false
  exclude_path : String := ""
deriving DecidableEq

/-- Embedding of AzSyncOptions.get_options_list. -/
def AzSyncOptions.get_options_list (o : AzSyncOptions) : List String :=
  (if o.recursive then ["--recursive"] else [])
    ++ (if o.put_md5 then ["--put-md5"] else [])
    ++ (if 0 < o.exclude_path.length then ["--exclude-path", o.exclude_path] else [])

/-- Embedding of azcopy_utilities.AzListOptions. -/
structure AzListOptions where
  properties : Option String := none
  output_type : String := "text"
  output_level : Option String := none
  machine_readable : Bool := false
  mega_units : Bool := false
  running_tally : Bool := false
  trailing_dot : Option String := none
deriving DecidableEq

/-- Truthiness of an Optional[str] flag value in Python: None and the empty
string are falsy. -/
def optStrTruthy : Option String → Bool
  | none => false
  | some s => !(s == "")

/-- Flag-with-value emission guarded by Python truthiness of the value. -/
def optFlag (flag : String) : Option String → List String
  | none => []
  | some s => if s == "" then [] else [flag, s]

/-- Embedding of AzListOptions.get_options_list. -/
def AzListOptions.get_options_list (o : AzListOptions) : List String :=
  (match o.properties with
   | some p => if p == "" then [] else ["--properties", "\"" ++ p ++ "\""]
   | none => [])
    ++ (if !(o.output_type == "text") then ["--output-type", o.output_type] else [])
    ++ optFlag "--output-level" o.output_level
    ++ (if o.machine_readable then ["--machine-readable"] else [])
    ++ (if o.mega_units then ["--mega-units"] else [])
    ++ (if o.running_tally then ["--running-tally"] else [])
    ++ optFlag "--trailing-dot" o.trailing_dot

/-- Embedding of azcopy_utilities.AzRemoveOptions. -/
structure AzRemoveOptions where
  recursive : Bool := false
  include_pattern : Option String := none
  exclude_pattern : Option String := none
  dry_run : Bool := false
  delete_snapshots : Option String := none
  list_of_files : Option String := none
  list_of_versions : Option String := none
  force_if_read_only : Bool := false
  permanent_delete : Bool := false
  include_after : Option String := none
  include_before : Option String := none
deriving DecidableEq

/-- Embedding of AzRemoveOptions.get_options_list. -/
def AzRemoveOptions.get_options_list (o : AzRemoveOptions) : List String :=
  (if o.recursive then ["--recursive"] else [])
    ++ optFlag "--include-pattern" o.include_pattern
    ++ optFlag "--exclude-pattern" o.exclude_pattern
    ++ (if o.dry_run then ["--dry-run"] else [])
    ++ optFlag "--delete-snapshots" o.delete_snapshots
    ++ optFlag "--list-of-files" o.list_of_files
    ++ optFlag "--list-of-versions" o.list_of_versions
    ++ (if o.force_if_read_only then ["--force-if-read-only"] else [])
    ++ (if o.permanent_delete then ["--permanent-delete"] else [])
    ++ optFlag "--include-after" o.include_after
    ++ optFlag "--include-before" o.include_before

/-- Embedding of azcopy_utilities.AzCopyJobInfo with its constructor defaults. -/
structure AzCopyJobInfo where
  percent_complete : Rat := 0
  error_msg : String := ""
  final_job_status_msg : String := ""
  number_of_file_transfers : Nat := 0
  number_of_folder_property_transfers : Nat := 0
  total_number_of_transfers : Nat := 0
  number_of_transfers_completed : Nat := 0
  number_of_transfers_failed : Nat := 0
  number_of_transfers_skipped : Nat := 0
  total_bytes_transferred : Nat := 0
  completed : Bool := false
deriving DecidableEq

/-- Embedding of azcopy_utilities.AzSyncJobInfo with its constructor defaults. -/
structure AzSyncJobInfo where
  percent_complete : Rat := 0
  error_msg : String := ""
  final_job_status_msg : String := ""
  files_scanned_at_source : Nat := 0
  files_scanned_at_destination : Nat := 0
  number_of_copy_transfers_for_files : Nat := 0
  number_of_copy_transfers_for_folder_properties : Nat := 0
  number_of_folder_property_transfers : Nat := 0
  total_number_of_copy_transfers : Nat := 0
  number_of_copy_transfers_completed : Nat := 0
  number_of_copy_transfers_failed : Nat := 0
  number_of_deletions_at_destination : Nat := 0
  total_number_of_bytes_transferred : Nat := 0
  total_number_of_bytes_enumerated : Nat := 0
  completed : Bool := false
deriving DecidableEq

/-- Embedding of azcopy_utilities.AzListJobInfo with its constructor defaults. -/
structure AzListJobInfo where
  error_msg : String := ""
  final_job_status_msg : String := ""
  completed : Bool := false
  output_text : String := ""
  items : List PyJson := []

/-- Embedding of azcopy_utilities.AzRemoveJobInfo with its constructor defaults. -/
structure AzRemoveJobInfo where
  percent_complete : Rat := 0
  error_msg : String := ""
  final_job_status_msg : String := ""
  completed : Bool := false
  number_of_files_removed : Nat := 0
  number_of_folders_removed : Nat := 0
  total_number_of_removals : Nat := 0
  number_of_removals_completed : Nat := 0
  number_of_removals_failed : Nat := 0
  number_of_removals_skipped : Nat := 0
  total_bytes_removed : Nat := 0
deriving DecidableEq

/-! ## Line source (external collaborator)

The external process behind execute_command is modelled as the finite list of
lines it yields, followed optionally by a mid-stream failure (the exception
text of the error the generator raises after its last delivered line).  The
collaborator itself is a parameter of type List String → LineStream mapping
the argument vector to the produced stream. -/

structure LineStream where
  lines : List String
  midStreamError : Option String := none

/-! ## Spec-modelled summary parsers

The module azcopy_wrapper/azcopy_summary.py is imported by azcopy_client.py
but is not among the sources; the three functions below are therefore
modelled from the spec. -/

/-- Counter value taken from the first summary line of the form
"label: number" (with surrounding whitespace tolerated); otherwise the
previous value is kept. -/
def counterFromLine (label : String) (line : String) : Option Nat :=
  let l := pyStrip line
  if strStartsWith l (label ++ ":") then
    parseNatDigits (pyStrip (strDrop l (label.length + 1))).data
  else none

/-- Labeled-counter extraction over the summary text, line oriented and
tolerant: a missing or malformed field keeps the previous value. -/
def extractCounter (summary : String) (label : String) (prev : Nat) : Nat :=
  match (pySplitChar '\n' summary).findSome? (counterFromLine label) with
  | some n => n
  | none => prev

/-- Modelled from the spec: get_transfer_copy_summary_info lives in
azcopy_wrapper/azcopy_summary.py, which is not among the sources.  Per spec
section 4.2 it extracts labeled numeric fields from the captured copy summary
text using line-oriented label matching, never raises, and leaves unmatched
counters at their previous (zero) defaults; the labels mirror the copy
counters declared in the data model. -/
def get_transfer_copy_summary_info (job : AzCopyJobInfo) (summary : String) : AzCopyJobInfo :=
  { job with
    number_of_file_transfers :=
      extractCounter summary "Number of File Transfers" job.number_of_file_transfers,
    number_of_folder_property_transfers :=
      extractCounter summary "Number of Folder Property Transfers" job.number_of_folder_property_transfers,
    total_number_of_transfers :=
      extractCounter summary "Total Number of Transfers" job.total_number_of_transfers,
    number_of_transfers_completed :=
      extractCounter summary "Number of Transfers Completed" job.number_of_transfers_completed,
    number_of_transfers_failed :=
      extractCounter summary "Number of Transfers Failed" job.number_of_transfers_failed,
    number_of_transfers_skipped :=
      extractCounter summary "Number of Transfers Skipped" job.number_of_transfers_skipped,
    total_bytes_transferred :=
      extractCounter summary "TotalBytesTransferred" job.total_bytes_transferred }

/-- Modelled from the spec: get_sync_summary_info of
azcopy_wrapper/azcopy_summary.py (not among the sources), the sync analogue of
the copy summary parser, filling the sync counters declared in the data
model. -/
def get_sync_summary_info (job : AzSyncJobInfo) (summary : String) : AzSyncJobInfo :=
  { job with
    files_scanned_at_source :=
      extractCounter summary "Files Scanned at Source" job.files_scanned_at_source,
    files_scanned_at_destination :=
      extractCounter summary "Files Scanned at Destination" job.files_scanned_at_destination,
    number_of_copy_transfers_for_files :=
      extractCounter summary "Number of Copy Transfers for Files" job.number_of_copy_transfers_for_files,
    number_of_copy_transfers_for_folder_properties :=
      extractCounter summary "Number of Copy Transfers for Folder Properties" job.number_of_copy_transfers_for_folder_properties,
    number_of_folder_property_transfers :=
      extractCounter summary "Number of Folder Property Transfers" job.number_of_folder_property_transfers,
    total_number_of_copy_transfers :=
      extractCounter summary "Total Number of Copy Transfers" job.total_number_of_copy_transfers,
    number_of_copy_transfers_completed :=
      extractCounter summary "Number of Copy Transfers Completed" job.number_of_copy_transfers_completed,
    number_of_copy_transfers_failed :=
      extractCounter summary "Number of Copy Transfers Failed" job.number_of_copy_transfers_failed,
    number_of_deletions_at_destination :=
      extractCounter summary "Number of Deletions at Destination" job.number_of_deletions_at_destination,
    total_number_of_bytes_transferred :=
      extractCounter summary "Total Number of Bytes Transferred" job.total_number_of_bytes_transferred,
    total_number_of_bytes_enumerated :=
      extractCounter summary "Total Number of Bytes Enumerated" job.total_number_of_bytes_enumerated }

/-- Modelled from the spec: get_remove_summary_info of
azcopy_wrapper/azcopy_summary.py (not among the sources), the remove analogue
of the copy summary parser, filling the removal counters declared in the data
model. -/
def get_remove_summary_info (job : AzRemoveJobInfo) (summary : String) : AzRemoveJobInfo :=
  { job with
    number_of_files_removed :=
      extractCounter summary "Number of Files Removed" job.number_of_files_removed,
    number_of_folders_removed :=
      extractCounter summary "Number of Folders Removed" job.number_of_folders_removed,
    total_number_of_removals :=
      extractCounter summary "Total Number of Removals" job.total_number_of_removals,
    number_of_removals_completed :=
      extractCounter summary "Number of Removals Completed" job.number_of_removals_completed,
    number_of_removals_failed :=
      extractCounter summary "Number of Removals Failed" job.number_of_removals_failed,
    number_of_removals_skipped :=
      extractCounter summary "Number of Removals Skipped" job.number_of_removals_skipped,
    total_bytes_removed :=
      extractCounter summary "Total Bytes Removed" job.total_bytes_removed }

/-! ## AzClient._copy (azcopy_client.py lines 48-148) -/

/-- Loop state of the streaming for-loop of AzClient._copy: the mutable
job_info plus the summary accumulator and its unlock flag. -/
structure CopyLoopState where
  job : AzCopyJobInfo
  summary : String
  unlock_summary : Bool
deriving DecidableEq

/-- State at the top of the for-loop of AzClient._copy. -/
def copyInitState : CopyLoopState :=
  { job := {}, summary := "", unlock_summary := false }

/-- Body of the for-loop of AzClient._copy for one output line, in source
order: percent extraction, summary append (before this line can itself set
the unlock flag), unlock detection, authentication detection, terminal status
detection. -/
def copyLineStep (st : CopyLoopState) (output_line : String) : CopyLoopState :=
  let job := st.job
  let job :=
    if strContainsChar output_line '%' then
      match matchPercent output_line with
      | some p => { job with percent_complete := p }
      | none => job
    else job
  let summary := if st.unlock_summary then st.summary ++ output_line else st.summary
  let unlock_summary :=
    st.unlock_summary || (strStartsWith output_line "Job" && strContains output_line "summary")
  let job :=
    if strContains output_line "AuthenticationFailed" then
      { job with error_msg := output_line }
    else job
  let job :=
    if strContains output_line "Final Job Status:" then
      { job with final_job_status_msg := pyLastColonField output_line }
    else job
  { job := job, summary := summary, unlock_summary := unlock_summary }

/-- Except-clause of AzClient._copy: a mid-stream failure is classified with
the SAS-expiry predicate against the destination token when the destination
is remote, else the source token when the source is remote, else the empty
token. -/
def copyExceptHandler (expired : String → Bool) (src dest : AzEndpoint)
    (job : AzCopyJobInfo) (e : String) : AzCopyJobInfo :=
  let token :=
    match dest with
    | .remote l => l.sas_token
    | .localLoc _ =>
      match src with
      | .remote l => l.sas_token
      | .localLoc _ => ""
  let job :=
    if expired token then { job with error_msg := "SAS token is expired" }
    else { job with error_msg := e }
  { job with completed := false }

/-- Final classification of AzClient._copy (lines 132-148): a recognized
terminal status returns the job as completed; otherwise a failure counter or
a generic message is appended to error_msg and the call raises. -/
def copyFinalize (job : AzCopyJobInfo) : Except AzCopyJobInfo AzCopyJobInfo :=
  if job.final_job_status_msg = "Completed" ∨ job.final_job_status_msg = "CompletedWithSkipped" then
    .ok { job with completed := true }
  else if 0 < job.number_of_transfers_failed then
    .error { job with
      error_msg := job.error_msg ++ "; Tranfers failed = " ++ toString job.number_of_transfers_failed,
      completed := false }
  else
    .error { job with
      error_msg := job.error_msg ++ "; Error while transferring data",
      completed := false }

/-- Streaming and summary-parsing part of AzClient._copy once the command is
rendered: the for-loop over the produced lines, the except clause on a
mid-stream failure, and the summary parser, yielding the job_info state that
the final classification then inspects. -/
def copyParsedInfo (exe : String) (e1 : String → Bool) (lineSource : List String → LineStream)
    (src dest : AzEndpoint) (transfer_options : AzCopyOptions) (src_str dest_str : String) :
    AzCopyJobInfo :=
  let cmd := [exe, "cp", src_str, dest_str] ++ transfer_options.get_options_list
  let stream := lineSource cmd
  let st := stream.lines.foldl copyLineStep copyInitState
  let job :=
    match stream.midStreamError with
    | none => st.job
    | some e => copyExceptHandler e1 src dest st.job e
  get_transfer_copy_summary_info job st.summary

/-- Embedding of AzClient._copy.  exe is the client's exe_to_use; e0 is the
expiry predicate as consulted while the command is rendered, e1 as consulted
in the except clause; lineSource is the external execute_command
collaborator.  An error value carries the raised message and, when the
failure happens after job_info exists, the job_info state at raise time. -/
def azCopy (exe : String) (e0 e1 : String → Bool) (lineSource : List String → LineStream)
    (src dest : AzEndpoint) (transfer_options : AzCopyOptions) :
    Except (String × Option AzCopyJobInfo) AzCopyJobInfo :=
  match renderEndpoint e0 src with
  | .error m => .error (m, none)
  | .ok src_str =>
    match renderEndpoint e0 dest with
    | .error m => .error (m, none)
    | .ok dest_str =>
      match copyFinalize (copyParsedInfo exe e1 lineSource src dest transfer_options src_str dest_str) with
      | .ok j => .ok j
      | .error j => .error (j.error_msg, some j)

/-! ## AzClient._sync (azcopy_client.py lines 150-237) -/

/-- Loop state of the streaming for-loop of AzClient._sync. -/
structure SyncLoopState where
  job : AzSyncJobInfo
  summary : String
  unlock_summary : Bool
deriving DecidableEq

/-- State at the top of the for-loop of AzClient._sync. -/
def syncInitState : SyncLoopState :=
  { job := {}, summary := "", unlock_summary := false }

/-- Parenthesis stripping applied by _sync to each appended summary line:
output_line.replace("(", "").replace(")", ""). -/
def syncParenClean (s : String) : String :=
  pyRemoveChar (pyRemoveChar s '(') ')'

/-- Body of the for-loop of AzClient._sync for one output line.  Unlike
_copy, the unlock trigger is checked on the stripped and lowercased line, and
appended summary lines have their parentheses removed. -/
def syncLineStep (st : SyncLoopState) (output_line : String) : SyncLoopState :=
  let job := st.job
  let job :=
    if strContainsChar output_line '%' then
      match matchPercent output_line with
      | some p => { job with percent_complete := p }
      | none => job
    else job
  let summary := if st.unlock_summary then st.summary ++ syncParenClean output_line else st.summary
  let output_line_cleaned := pyLower (pyStrip output_line)
  let unlock_summary :=
    st.unlock_summary
      || (strStartsWith output_line_cleaned "job" && strContains output_line_cleaned "summary")
  let job :=
    if strContains output_line "AuthenticationFailed" then
      { job with error_msg := output_line }
    else job
  let job :=
    if strContains output_line "Final Job Status:" then
      { job with final_job_status_msg := pyLastColonField output_line }
    else job
  { job := job, summary := summary, unlock_summary := unlock_summary }

/-- Final classification of AzClient._sync (lines 221-237). -/
def syncFinalize (job : AzSyncJobInfo) : Except AzSyncJobInfo AzSyncJobInfo :=
  if job.final_job_status_msg = "Completed" ∨ job.final_job_status_msg = "CompletedWithSkipped" then
    .ok { job with completed := true }
  else if 0 < job.number_of_copy_transfers_failed then
    .error { job with
      error_msg := job.error_msg ++ "; Tranfers failed = " ++ toString job.number_of_copy_transfers_failed,
      completed := false }
  else
    .error { job with
      error_msg := job.error_msg ++ "; Error while transferring data",
      completed := false }

/-- Streaming and summary-parsing part of AzClient._sync once the command is
rendered.  The except clause of _sync only clears completed; it performs no
credential-expiry diagnosis. -/
def syncParsedInfo (exe : String) (lineSource : List String → LineStream)
    (transfer_options : AzSyncOptions) (src_str dest_str : String) : AzSyncJobInfo :=
  let cmd := [exe, "sync", src_str, dest_str] ++ transfer_options.get_options_list
  let stream := lineSource cmd
  let st := stream.lines.foldl syncLineStep syncInitState
  let job :=
    match stream.midStreamError with
    | none => st.job
    | some _ => { st.job with completed := false }
  get_sync_summary_info job st.summary

/-- Embedding of AzClient._sync. -/
def azSync (exe : String) (e0 : String → Bool) (lineSource : List String → LineStream)
    (src dest : AzEndpoint) (transfer_options : AzSyncOptions) :
    Except (String × Option AzSyncJobInfo) AzSyncJobInfo :=
  match renderEndpoint e0 src with
  | .error m => .error (m, none)
  | .ok src_str =>
    match renderEndpoint e0 dest with
    | .error m => .error (m, none)
    | .ok dest_str =>
      match syncFinalize (syncParsedInfo exe lineSource transfer_options src_str dest_str) with
      | .ok j => .ok j
      | .error j => .error (j.error_msg, some j)

/-! ## AzClient._remove (azcopy_client.py lines 312-403) -/

/-- Loop state of the streaming for-loop of AzClient._remove. -/
structure RemoveLoopState where
  job : AzRemoveJobInfo
  summary : String
  unlock_summary : Bool
deriving DecidableEq

/-- State at the top of the for-loop of AzClient._remove. -/
def removeInitState : RemoveLoopState :=
  { job := {}, summary := "", unlock_summary := false }

/-- Body of the for-loop of AzClient._remove for one output line; it is the
same line handling as _copy, on the remove job record. -/
def removeLineStep (st : RemoveLoopState) (output_line : String) : RemoveLoopState :=
  let job := st.job
  let job :=
    if strContainsChar output_line '%' then
      match matchPercent output_line with
      | some p => { job with percent_complete := p }
      | none => job
    else job
  let summary := if st.unlock_summary then st.summary ++ output_line else st.summary
  let unlock_summary :=
    st.unlock_summary || (strStartsWith output_line "Job" && strContains output_line "summary")
  let job :=
    if strContains output_line "AuthenticationFailed" then
      { job with error_msg := output_line }
    else job
  let job :=
    if strContains output_line "Final Job Status:" then
      { job with final_job_status_msg := pyLastColonField output_line }
    else job
  { job := job, summary := summary, unlock_summary := unlock_summary }

/-- Except-clause of AzClient._remove: the location's token is checked with
the SAS-expiry predicate. -/
def removeExceptHandler (expired : String → Bool) (location : AzRemoteSASLocation)
    (job : AzRemoveJobInfo) (e : String) : AzRemoveJobInfo :=
  let job :=
    if expired location.sas_token then { job with error_msg := "SAS token is expired" }
    else { job with error_msg := e }
  { job with completed := false }

/-- Final classification of AzClient._remove (lines 387-401). -/
def removeFinalize (job : AzRemoveJobInfo) : Except AzRemoveJobInfo AzRemoveJobInfo :=
  if job.final_job_status_msg = "Completed" ∨ job.final_job_status_msg = "CompletedWithSkipped" then
    .ok { job with completed := true }
  else if 0 < job.number_of_removals_failed then
    .error { job with
      error_msg := job.error_msg ++ "; Removals failed = " ++ toString job.number_of_removals_failed,
      completed := false }
  else
    .error { job with
      error_msg := job.error_msg ++ "; Error while removing data",
      completed := false }

/-- Streaming and summary-parsing part of AzClient._remove once the command
is rendered, yielding the job_info state that the final classification then
inspects. -/
def removeParsedInfo (exe : String) (e1 : String → Bool) (lineSource : List String → LineStream)
    (location : AzRemoteSASLocation) (remove_options : AzRemoveOptions) (loc_str : String) :
    AzRemoveJobInfo :=
  let cmd := [exe, "remove", loc_str] ++ remove_options.get_options_list
  let stream := lineSource cmd
  let st := stream.lines.foldl removeLineStep removeInitState
  let job :=
    match stream.midStreamError with
    | none => st.job
    | some e => removeExceptHandler e1 location st.job e
  get_remove_summary_info job st.summary

/-- Embedding of AzClient._remove. -/
def azRemove (exe : String) (e0 e1 : String → Bool) (lineSource : List String → LineStream)
    (location : AzRemoteSASLocation) (remove_options : AzRemoveOptions) :
    Except (String × Option AzRemoveJobInfo) AzRemoveJobInfo :=
  match azRemoteStr e0 location with
  | .error m => .error (m, none)
  | .ok loc_str =>
    match removeFinalize (removeParsedInfo exe e1 lineSource location remove_options loc_str) with
    | .ok j => .ok j
    | .error j => .error (j.error_msg, some j)

/-! ## AzClient._list (azcopy_client.py lines 239-310) -/

/-- For-loop of AzClient._list: every line is first appended (rstripped) to
the output buffer; a line containing "AuthenticationFailed" then raises at
once, which aborts the remaining consumption. -/
def azListLoop (job : AzListJobInfo) (acc : List String) :
    List String → Except AzListJobInfo (AzListJobInfo × List String)
  | [] => .ok (job, acc)
  | output_line :: rest =>
    let acc := acc ++ [pyRstrip output_line]
    if strContains output_line "AuthenticationFailed" then
      .error { job with error_msg := output_line, completed := false }
    else azListLoop job acc rest

/-- JSON decode pass of AzClient._list (lines 276-299) over the buffered
lines.  A none result corresponds to the except-pass that swallows an
unexpected failure of the whole pass (leaving items at its previous value);
lines that fail the brace test or json.loads are skipped individually. -/
def decodeItems : List String → List PyJson → Option (List PyJson)
  | [], acc => some acc
  | l :: ls, acc =>
    let t := pyStrip l
    if !(t == "") && strStartsWith t "\x7b" && strEndsWith t "\x7d" then
      match jsonLoads t with
      | none => decodeItems ls acc
      | some v =>
        match v with
        | .obj _ =>
          (match jsonGet v "MessageType" with
           | some (.str mt) =>
             if mt == "ListObject" then
               let mc := (jsonGet v "MessageContent").getD (.str "")
               if jsonTruthy mc then
                 match mc with
                 | .str contents =>
                   (match jsonLoads contents with
                    | some file_info => decodeItems ls (acc ++ [file_info])
                    | none => decodeItems ls acc)
                 | _ => none
               else decodeItems ls acc
             else if mt == "EndOfJob" then decodeItems ls acc
             else decodeItems ls (acc ++ [v])
           | some _ => decodeItems ls (acc ++ [v])
           | none => decodeItems ls (acc ++ [v]))
        | _ => none
    else decodeItems ls acc

/-- Embedding of AzClient._list. -/
def azList (exe : String) (e0 : String → Bool) (lineSource : List String → LineStream)
    (location : AzRemoteSASLocation) (list_options : AzListOptions) :
    Except (String × Option AzListJobInfo) AzListJobInfo :=
  match azRemoteStr e0 location with
  | .error m => .error (m, none)
  | .ok loc_str =>
    let cmd := [exe, "list", loc_str] ++ list_options.get_options_list
    let stream := lineSource cmd
    match azListLoop {} [] stream.lines with
    | .error j =>
      -- the raised Exception carries j.error_msg, so the except clause's
      -- empty-message refill is the identity here
      .error (j.error_msg, some { j with completed := false })
    | .ok (job, output_lines) =>
      match stream.midStreamError with
      | some e =>
        let job := if job.error_msg == "" then { job with error_msg := e } else job
        let job := { job with completed := false }
        .error (job.error_msg, some job)
      | none =>
        let job := { job with output_text := joinWithNewline output_lines }
        let job :=
          if list_options.output_type == "json" then
            match decodeItems output_lines [] with
            | some items => { job with items := items }
            | none => job
          else job
        .ok { job with completed := true, final_job_status_msg := "Completed" }

/-! ## Client facade (sync preconditions, remove helpers) -/

/-- Embedding of AzClient.sync_to_local_location: the destination path must
already exist on disk, checked before anything else happens; the filesystem
is the external predicate pathExists. -/
def syncToLocalLocation (pathExists : String → Bool) (exe : String) (e0 : String → Bool)
    (lineSource : List String → LineStream) (src : AzRemoteSASLocation)
    (dest : AzLocalLocation) (transfer_options : AzSyncOptions) :
    Except (String × Option AzSyncJobInfo) AzSyncJobInfo :=
  if pathExists dest.path then
    azSync exe e0 lineSource (.remote src) (.localLoc dest) transfer_options
  else
    .error (dest.path ++ " does not exist. For sync operation, the given path needs to exist", none)

/-- Embedding of AzClient.sync_to_remote_location: the source path must
already exist on disk. -/
def syncToRemoteLocation (pathExists : String → Bool) (exe : String) (e0 : String → Bool)
    (lineSource : List String → LineStream) (src : AzLocalLocation)
    (dest : AzRemoteSASLocation) (transfer_options : AzSyncOptions) :
    Except (String × Option AzSyncJobInfo) AzSyncJobInfo :=
  if pathExists src.path then
    azSync exe e0 lineSource (.localLoc src) (.remote dest) transfer_options
  else
    .error (src.path ++ " does not exist. For sync operation, the given path needs to exist", none)

/-- Embedding of AzClient.remove_directory_recursive: the recursive field of
the caller's options object is set to True before _remove runs; the mutation
is explicit state passing here, so the call returns the options object the
caller is left holding alongside the _remove result. -/
def removeDirectoryRecursive (exe : String) (e0 e1 : String → Bool)
    (lineSource : List String → LineStream) (location : AzRemoteSASLocation)
    (remove_options : AzRemoveOptions) :
    (Except (String × Option AzRemoveJobInfo) AzRemoveJobInfo) × AzRemoveOptions :=
  let remove_options := { remove_options with recursive := true }
  (azRemove exe e0 e1 lineSource location remove_options, remove_options)

/-! ## Spec-side comparison definitions for the theorems -/

/-- Lines strictly after the first line satisfying the trigger. -/
def tailAfterFirst (p : String → Bool) : List String → List String
  | [] => []
  | l :: ls => if p l then ls else tailAfterFirst p ls

/-- Concatenation of the transform of every line. -/
def joinMapStr (f : String → String) : List String → String
  | [] => ""
  | l :: ls => f l ++ joinMapStr f ls

/-- Summary-capture machine reduced to its two state components: the buffer
and the unlock flag. -/
def summStep (p : String → Bool) (f : String → String) (st : String × Bool) (l : String) :
    String × Bool :=
  ((if st.2 then st.1 ++ f l else st.1), st.2 || p l)

/-- Unlock trigger of _copy and _remove: raw prefix test. -/
def copyUnlockTrigger (l : String) : Bool :=
  strStartsWith l "Job" && strContains l "summary"

/-- Unlock trigger of _sync: trim and lowercase first. -/
def syncUnlockTrigger (l : String) : Bool :=
  strStartsWith (pyLower (pyStrip l)) "job" && strContains (pyLower (pyStrip l)) "summary"

/-- Summary buffer captured by the _copy loop over the delivered lines. -/
def copySummaryOf (lines : List String) : String :=
  (lines.foldl copyLineStep copyInitState).summary

/-- Summary buffer captured by the _sync loop over the delivered lines. -/
def syncSummaryOf (lines : List String) : String :=
  (lines.foldl syncLineStep syncInitState).summary

/-- Summary buffer captured by the _remove loop over the delivered lines. -/
def removeSummaryOf (lines : List String) : String :=
  (lines.foldl removeLineStep removeInitState).summary

/-- Float value of the last line matching the percentage pattern, with a
default for the no-match case. -/
def lastPercentOf (lines : List String) (prev : Rat) : Rat :=
  (lines.filterMap matchPercent).getLastD prev

/-- Outcome shape of the amended expired-token claim: the call raised, the
JobInfo at raise time travels with the raised message, its error text begins
with the expiry diagnosis, and it is not completed. -/
def raisedWithExpiredToken (r : Except (String × Option AzRemoveJobInfo) AzRemoveJobInfo) : Bool :=
  match r with
  | .error (m, some j) =>
    strStartsWith m "SAS token is expired" && m == j.error_msg && j.completed == false
  | _ => false

/-- Outcome shape of the amended partial-failure claim for copy: the call
raised, its message contains the failed-counter fragment, the JobInfo at
raise time carries the same message and is not completed. -/
def copyRaisedTransfersFailed (n : Nat) (r : Except (String × Option AzCopyJobInfo) AzCopyJobInfo) :
    Bool :=
  match r with
  | .error (m, some j) =>
    strContains m ("Tranfers failed = " ++ toString n) && m == j.error_msg && j.completed == false
  | _ => false

instance instDecEqExcept {ε α : Type} [DecidableEq ε] [DecidableEq α] : DecidableEq (Except ε α)
  | .ok a, .ok b =>
    if h : a = b then .isTrue (congrArg Except.ok h) else .isFalse (fun hh => h (Except.ok.inj hh))
  | .ok _, .error _ => .isFalse (fun hh => Except.noConfusion hh)
  | .error _, .ok _ => .isFalse (fun hh => Except.noConfusion hh)
  | .error a, .error b =>
    if h : a = b then .isTrue (congrArg Except.error h)
    else .isFalse (fun hh => h (Except.error.inj hh))

/-! ## Helper lemmas -/

theorem str_append_empty (s : String) : s ++ "" = s := String.append_empty s

theorem str_empty_append (s : String) : "" ++ s = s := String.empty_append s

theorem strStartsWith_append (s a : String) : strStartsWith (s ++ a) s = true := by
  simp only [strStartsWith, decide_eq_true_eq, String.data_append]
  exact List.prefix_append _ _

theorem strStartsWith_append2 (s a b : String) : strStartsWith ((s ++ a) ++ b) s = true := by
  simp only [strStartsWith, decide_eq_true_eq, String.data_append]
  exact (List.prefix_append s.data a.data).trans ((s.data ++ a.data).prefix_append b.data)

theorem strStartsWith_append_of (s a b : String) (h : strStartsWith a s = true) :
    strStartsWith (a ++ b) s = true := by
  simp only [strStartsWith, decide_eq_true_eq, String.data_append] at h ⊢
  exact h.trans (List.prefix_append _ _)

theorem strContains_tranfers (a n : String) :
    strContains ((a ++ "; Tranfers failed = ") ++ n) ("Tranfers failed = " ++ n) = true := by
  simp only [strContains, decide_eq_true_eq, String.data_append]
  refine ⟨a.data ++ [';', ' '], [], ?_⟩
  simp only [List.append_assoc, List.append_nil]
  rfl

theorem matchPercent_mem_percent (s : String) (r : Rat) (h : matchPercent s = some r) :
    '%' ∈ s.data := by
  unfold matchPercent at h
  split at h
  · exact absurd h (by simp)
  · rename_i d1 r2 hne hdrop
    split at h
    · rename_i hc
      have h1 : '%' ∈ r2.dropWhile Char.isDigit := hc.2.subset (by simp)
      have h2 : '%' ∈ r2 := (List.dropWhile_sublist Char.isDigit).mem h1
      have h3 : '%' ∈ s.data.dropWhile Char.isDigit := by
        rw [hne]; exact List.mem_cons_of_mem _ h2
      exact (List.dropWhile_sublist Char.isDigit).mem h3
    · exact absurd h (by simp)
  · exact absurd h (by simp)

theorem matchPercent_none_of_no_percent (s : String) (h : strContainsChar s '%' = false) :
    matchPercent s = none := by
  cases hm : matchPercent s with
  | none => rfl
  | some r =>
    have hmem : strContainsChar s '%' = true := by
      simpa [strContainsChar] using matchPercent_mem_percent s r hm
    rw [hmem] at h
    simp at h

theorem copyLineStep_percent (st : CopyLoopState) (l : String) :
    (copyLineStep st l).job.percent_complete = (matchPercent l).getD st.job.percent_complete := by
  cases hc : strContainsChar l '%' with
  | false =>
    rw [matchPercent_none_of_no_percent l hc]
    simp [copyLineStep, hc, apply_ite AzCopyJobInfo.percent_complete]
  | true =>
    cases hm : matchPercent l with
    | none => simp [copyLineStep, hc, hm, apply_ite AzCopyJobInfo.percent_complete]
    | some p => simp [copyLineStep, hc, hm, apply_ite AzCopyJobInfo.percent_complete]

theorem syncLineStep_percent (st : SyncLoopState) (l : String) :
    (syncLineStep st l).job.percent_complete = (matchPercent l).getD st.job.percent_complete := by
  cases hc : strContainsChar l '%' with
  | false =>
    rw [matchPercent_none_of_no_percent l hc]
    simp [syncLineStep, hc, apply_ite AzSyncJobInfo.percent_complete]
  | true =>
    cases hm : matchPercent l with
    | none => simp [syncLineStep, hc, hm, apply_ite AzSyncJobInfo.percent_complete]
    | some p => simp [syncLineStep, hc, hm, apply_ite AzSyncJobInfo.percent_complete]

theorem removeLineStep_percent (st : RemoveLoopState) (l : String) :
    (removeLineStep st l).job.percent_complete = (matchPercent l).getD st.job.percent_complete := by
  cases hc : strContainsChar l '%' with
  | false =>
    rw [matchPercent_none_of_no_percent l hc]
    simp [removeLineStep, hc, apply_ite AzRemoveJobInfo.percent_complete]
  | true =>
    cases hm : matchPercent l with
    | none => simp [removeLineStep, hc, hm, apply_ite AzRemoveJobInfo.percent_complete]
    | some p => simp [removeLineStep, hc, hm, apply_ite AzRemoveJobInfo.percent_complete]

theorem lastPercentOf_cons (l : String) (ls : List String) (d : Rat) :
    lastPercentOf (l :: ls) d = lastPercentOf ls ((matchPercent l).getD d) := by
  unfold lastPercentOf
  cases hm : matchPercent l with
  | none => rw [List.filterMap_cons_none hm, Option.getD_none]
  | some p => rw [List.filterMap_cons_some hm, Option.getD_some, List.getLastD_cons]

theorem copy_foldl_percent (lines : List String) (st : CopyLoopState) :
    (lines.foldl copyLineStep st).job.percent_complete
      = lastPercentOf lines st.job.percent_complete := by
  induction lines generalizing st with
  | nil => simp [lastPercentOf]
  | cons l ls ih =>
    rw [List.foldl_cons, ih, lastPercentOf_cons, copyLineStep_percent]

theorem sync_foldl_percent (lines : List String) (st : SyncLoopState) :
    (lines.foldl syncLineStep st).job.percent_complete
      = lastPercentOf lines st.job.percent_complete := by
  induction lines generalizing st with
  | nil => simp [lastPercentOf]
  | cons l ls ih =>
    rw [List.foldl_cons, ih, lastPercentOf_cons, syncLineStep_percent]

theorem remove_foldl_percent (lines : List String) (st : RemoveLoopState) :
    (lines.foldl removeLineStep st).job.percent_complete
      = lastPercentOf lines st.job.percent_complete := by
  induction lines generalizing st with
  | nil => simp [lastPercentOf]
  | cons l ls ih =>
    rw [List.foldl_cons, ih, lastPercentOf_cons, removeLineStep_percent]

theorem summ_foldl_unlocked (p : String → Bool) (f : String → String) (lines : List String)
    (s : String) : (lines.foldl (summStep p f) (s, true)).1 = s ++ joinMapStr f lines := by
  induction lines generalizing s with
  | nil => simp [joinMapStr, str_append_empty]
  | cons l ls ih =>
    rw [List.foldl_cons]
    show (ls.foldl (summStep p f) (s ++ f l, true)).1 = s ++ joinMapStr f (l :: ls)
    rw [ih, joinMapStr, String.append_assoc]

theorem summ_foldl_locked (p : String → Bool) (f : String → String) (lines : List String)
    (s : String) :
    (lines.foldl (summStep p f) (s, false)).1 = s ++ joinMapStr f (tailAfterFirst p lines) := by
  induction lines generalizing s with
  | nil => simp [tailAfterFirst, joinMapStr, str_append_empty]
  | cons l ls ih =>
    rw [List.foldl_cons]
    cases hp : p l with
    | false =>
      show (ls.foldl (summStep p f) ((if false then s ++ f l else s), false || p l)).1
        = s ++ joinMapStr f (tailAfterFirst p (l :: ls))
      rw [if_neg (by simp), hp, Bool.false_or]
      rw [ih, tailAfterFirst, if_neg (by simp [hp])]
    | true =>
      show (ls.foldl (summStep p f) ((if false then s ++ f l else s), false || p l)).1
        = s ++ joinMapStr f (tailAfterFirst p (l :: ls))
      rw [if_neg (by simp), hp, Bool.false_or]
      rw [summ_foldl_unlocked, tailAfterFirst, if_pos (by simp [hp])]

theorem copy_foldl_summ (lines : List String) (st : CopyLoopState) :
    ((lines.foldl copyLineStep st).summary, (lines.foldl copyLineStep st).unlock_summary)
      = lines.foldl (summStep copyUnlockTrigger id) (st.summary, st.unlock_summary) := by
  induction lines generalizing st with
  | nil => rfl
  | cons l ls ih =>
    rw [List.foldl_cons, List.foldl_cons, ih]
    rfl

theorem sync_foldl_summ (lines : List String) (st : SyncLoopState) :
    ((lines.foldl syncLineStep st).summary, (lines.foldl syncLineStep st).unlock_summary)
      = lines.foldl (summStep syncUnlockTrigger syncParenClean) (st.summary, st.unlock_summary) := by
  induction lines generalizing st with
  | nil => rfl
  | cons l ls ih =>
    rw [List.foldl_cons, List.foldl_cons, ih]
    rfl

theorem remove_foldl_summ (lines : List String) (st : RemoveLoopState) :
    ((lines.foldl removeLineStep st).summary, (lines.foldl removeLineStep st).unlock_summary)
      = lines.foldl (summStep copyUnlockTrigger id) (st.summary, st.unlock_summary) := by
  induction lines generalizing st with
  | nil => rfl
  | cons l ls ih =>
    rw [List.foldl_cons, List.foldl_cons, ih]
    rfl

theorem copyFinalize_ok (job j : AzCopyJobInfo) (h : copyFinalize job = .ok j) :
    j.completed = true
      ∧ (j.final_job_status_msg = "Completed" ∨ j.final_job_status_msg = "CompletedWithSkipped") := by
  unfold copyFinalize at h
  split at h
  · rename_i hc
    injection h with h
    subst h
    exact ⟨rfl, hc⟩
  · split at h <;> simp at h

theorem copyFinalize_err (job j : AzCopyJobInfo) (h : copyFinalize job = .error j) :
    j.completed = false := by
  unfold copyFinalize at h
  split at h
  · simp at h
  · split at h <;> (injection h with h; subst h; rfl)

theorem syncFinalize_ok (job j : AzSyncJobInfo) (h : syncFinalize job = .ok j) :
    j.completed = true
      ∧ (j.final_job_status_msg = "Completed" ∨ j.final_job_status_msg = "CompletedWithSkipped") := by
  unfold syncFinalize at h
  split at h
  · rename_i hc
    injection h with h
    subst h
    exact ⟨rfl, hc⟩
  · split at h <;> simp at h

theorem syncFinalize_err (job j : AzSyncJobInfo) (h : syncFinalize job = .error j) :
    j.completed = false := by
  unfold syncFinalize at h
  split at h
  · simp at h
  · split at h <;> (injection h with h; subst h; rfl)

theorem removeFinalize_ok (job j : AzRemoveJobInfo) (h : removeFinalize job = .ok j) :
    j.completed = true
      ∧ (j.final_job_status_msg = "Completed" ∨ j.final_job_status_msg = "CompletedWithSkipped") := by
  unfold removeFinalize at h
  split at h
  · rename_i hc
    injection h with h
    subst h
    exact ⟨rfl, hc⟩
  · split at h <;> simp at h

theorem removeFinalize_err (job j : AzRemoveJobInfo) (h : removeFinalize job = .error j) :
    j.completed = false := by
  unfold removeFinalize at h
  split at h
  · simp at h
  · split at h <;> (injection h with h; subst h; rfl)

theorem removeLineStep_status (st : RemoveLoopState) (l : String)
    (h : strContains l "Final Job Status:" = false) :
    (removeLineStep st l).job.final_job_status_msg = st.job.final_job_status_msg := by
  cases hc : strContainsChar l '%' <;>
    cases hm : matchPercent l <;>
      simp [removeLineStep, h, hc, hm, apply_ite AzRemoveJobInfo.final_job_status_msg]

theorem remove_foldl_status (lines : List String) (st : RemoveLoopState)
    (h : ∀ l ∈ lines, strContains l "Final Job Status:" = false) :
    (lines.foldl removeLineStep st).job.final_job_status_msg = st.job.final_job_status_msg := by
  induction lines generalizing st with
  | nil => rfl
  | cons l ls ih =>
    rw [List.foldl_cons, ih _ (fun y hy => h y (List.mem_cons_of_mem _ hy)),
      removeLineStep_status _ _ (h l (List.mem_cons_self _ _))]

theorem azListLoop_auth (job : AzListJobInfo) (acc : List String) (pre rest : List String)
    (l : String)
    (hpre : ∀ x ∈ pre, strContains x "AuthenticationFailed" = false)
    (hl : strContains l "AuthenticationFailed" = true) :
    azListLoop job acc (pre ++ l :: rest)
      = .error { job with error_msg := l, completed := false } := by
  induction pre generalizing acc with
  | nil => simp [azListLoop, hl]
  | cons x xs ih =>
    have hx : strContains x "AuthenticationFailed" = false := hpre x (List.mem_cons_self _ _)
    rw [List.cons_append]
    simp only [azListLoop, hx, Bool.false_eq_true, if_false]
    exact ih _ (fun y hy => hpre y (List.mem_cons_of_mem _ hy))

theorem azListLoop_err_completed (lines : List String) (job : AzListJobInfo)
    (acc : List String) (j : AzListJobInfo) (h : azListLoop job acc lines = .error j) :
    j.completed = false := by
  induction lines generalizing acc with
  | nil => simp [azListLoop] at h
  | cons l ls ih =>
    unfold azListLoop at h
    split at h
    · injection h with h
      subst h
      rfl
    · exact ih _ h

theorem grsi_error_msg (job : AzRemoveJobInfo) (s : String) :
    (get_remove_summary_info job s).error_msg = job.error_msg := rfl

theorem grsi_status (job : AzRemoveJobInfo) (s : String) :
    (get_remove_summary_info job s).final_job_status_msg = job.final_job_status_msg := rfl

theorem removeExceptHandler_error_msg (expired : String → Bool) (loc : AzRemoteSASLocation)
    (job : AzRemoveJobInfo) (e : String) (he : expired loc.sas_token = true) :
    (removeExceptHandler expired loc job e).error_msg = "SAS token is expired" := by
  simp [removeExceptHandler, he]

theorem removeExceptHandler_status (expired : String → Bool) (loc : AzRemoteSASLocation)
    (job : AzRemoveJobInfo) (e : String) :
    (removeExceptHandler expired loc job e).final_job_status_msg = job.final_job_status_msg := by
  simp [removeExceptHandler, apply_ite AzRemoveJobInfo.final_job_status_msg]

theorem removeParsedInfo_expired_msg (exe : String) (e1 : String → Bool)
    (lineSource : List String → LineStream) (loc : AzRemoteSASLocation)
    (opts : AzRemoveOptions) (loc_str em : String)
    (he : e1 loc.sas_token = true)
    (hm : (lineSource ([exe, "remove", loc_str] ++ opts.get_options_list)).midStreamError
      = some em) :
    (removeParsedInfo exe e1 lineSource loc opts loc_str).error_msg = "SAS token is expired" := by
  unfold removeParsedInfo
  simp only [hm]
  rw [grsi_error_msg, removeExceptHandler_error_msg _ _ _ _ he]

theorem removeParsedInfo_expired_status (exe : String) (e1 : String → Bool)
    (lineSource : List String → LineStream) (loc : AzRemoteSASLocation)
    (opts : AzRemoveOptions) (loc_str em : String)
    (hm : (lineSource ([exe, "remove", loc_str] ++ opts.get_options_list)).midStreamError
      = some em)
    (hnl : ∀ l ∈ (lineSource ([exe, "remove", loc_str] ++ opts.get_options_list)).lines,
      strContains l "Final Job Status:" = false) :
    (removeParsedInfo exe e1 lineSource loc opts loc_str).final_job_status_msg = "" := by
  unfold removeParsedInfo
  simp only [hm]
  rw [grsi_status, removeExceptHandler_status, remove_foldl_status _ _ hnl]
  rfl

/-! ## Claim theorems -/

/-- C1, counterexample.  With the terminal status parsed as "Completed" and
the summary reporting 2 failed transfers, the copy call does not raise: the
status check takes precedence over the failure counter, so _copy returns a
JobInfo with completed = True and number_of_transfers_failed = 2, and no
message containing "Tranfers failed = 2" is ever produced. -/
theorem C1_counterexample :
    azCopy "azcopy" (fun _ => false) (fun _ => false)
        (fun _ => { lines := ["Job abc summary\n", "Number of Transfers Failed: 2\n",
                              "Final Job Status: Completed\n"] })
        (.localLoc { path := "/a" }) (.localLoc { path := "/b" }) {}
      = .ok { final_job_status_msg := "Completed",
              number_of_transfers_failed := 2,
              completed := true } := by
  decide

/-- C1, amended claim.  The raise with a message containing
"Tranfers failed = 2" and completed = False happens exactly on the other
side of the status check: when the parsed terminal status is neither
"Completed" nor "CompletedWithSkipped" and the parsed failure counter is 2,
_copy raises that failure signal. -/
theorem C1_amended_failed_counter_raises (exe : String) (e0 e1 : String → Bool)
    (lineSource : List String → LineStream) (src dest : AzEndpoint) (opts : AzCopyOptions)
    (src_str dest_str : String)
    (hs : renderEndpoint e0 src = .ok src_str)
    (hd : renderEndpoint e0 dest = .ok dest_str)
    (h1 : (copyParsedInfo exe e1 lineSource src dest opts src_str dest_str).final_job_status_msg
      ≠ "Completed")
    (h2 : (copyParsedInfo exe e1 lineSource src dest opts src_str dest_str).final_job_status_msg
      ≠ "CompletedWithSkipped")
    (h3 : (copyParsedInfo exe e1 lineSource src dest opts src_str dest_str).number_of_transfers_failed
      = 2) :
    copyRaisedTransfersFailed 2 (azCopy exe e0 e1 lineSource src dest opts) = true := by
  unfold azCopy
  rw [hs, hd]
  dsimp only
  unfold copyFinalize
  rw [if_neg (not_or.mpr ⟨h1, h2⟩), if_pos (by rw [h3]; decide)]
  simp [copyRaisedTransfersFailed, h3, strContains_tranfers]

/-- C1, witness for the amended theorem at a stream whose terminal status is
"Failed" and whose summary reports 2 failed transfers. -/
theorem C1_amended_witness :
    copyRaisedTransfersFailed 2
      (azCopy "azcopy" (fun _ => false) (fun _ => false)
        (fun _ => { lines := ["Job abc summary\n", "Number of Transfers Failed: 2\n",
          "Final Job Status: Failed\n"] })
        (.localLoc { path := "/a" }) (.localLoc { path := "/b" }) {}) = true :=
  C1_amended_failed_counter_raises "azcopy" (fun _ => false) (fun _ => false)
    (fun _ => { lines := ["Job abc summary\n", "Number of Transfers Failed: 2\n",
      "Final Job Status: Failed\n"] })
    (.localLoc { path := "/a" }) (.localLoc { path := "/b" }) {} "/a" "/b"
    (by decide) (by decide) (by decide) (by decide) (by decide)

/-- C4, counterexample.  On a mid-stream failure of the remove stream with an
expired token, the except clause does set error_msg to exactly
"SAS token is expired", but the final classification then appends
"; Error while removing data" and raises, so the JobInfo the failure signal
carries has error_msg "SAS token is expired; Error while removing data",
which is not exactly "SAS token is expired". -/
theorem C4_counterexample :
    azRemove "azcopy" (fun _ => false) (fun _ => true)
        (fun _ => { lines := [], midStreamError := some "process failed" })
        { storage_account := "acct", container := "cont", path := "p", sas_token := "tok" } {}
      = .error ("SAS token is expired; Error while removing data",
          some { error_msg := "SAS token is expired; Error while removing data",
                 completed := false })
    ∧ ("SAS token is expired; Error while removing data" : String) ≠ "SAS token is expired" := by
  constructor
  · decide
  · decide

/-- C4, amended claim.  When the remove stream fails mid-stream, no delivered
line carried a terminal-status marker, and the SAS-expiry predicate reports
the location's token expired, the call raises with completed = False and an
error message that begins with "SAS token is expired" (the finalize step
appends its own fragment after the expiry diagnosis). -/
theorem C4_amended_expired_token (exe : String) (e0 e1 : String → Bool)
    (lineSource : List String → LineStream) (loc : AzRemoteSASLocation)
    (opts : AzRemoveOptions) (loc_str em : String)
    (hr : azRemoteStr e0 loc = .ok loc_str)
    (he : e1 loc.sas_token = true)
    (hm : (lineSource ([exe, "remove", loc_str] ++ opts.get_options_list)).midStreamError
      = some em)
    (hnl : ∀ l ∈ (lineSource ([exe, "remove", loc_str] ++ opts.get_options_list)).lines,
      strContains l "Final Job Status:" = false) :
    raisedWithExpiredToken (azRemove exe e0 e1 lineSource loc opts) = true := by
  have hmsg := removeParsedInfo_expired_msg exe e1 lineSource loc opts loc_str em he hm
  have hstat := removeParsedInfo_expired_status exe e1 lineSource loc opts loc_str em hm hnl
  unfold azRemove
  rw [hr]
  dsimp only
  unfold removeFinalize
  rw [if_neg (by rw [hstat]; decide)]
  by_cases hcf : 0 < (removeParsedInfo exe e1 lineSource loc opts loc_str).number_of_removals_failed
  · rw [if_pos hcf]
    simp [raisedWithExpiredToken, hmsg]
    exact strStartsWith_append_of _ _ _ (by decide)
  · rw [if_neg hcf]
    simp [raisedWithExpiredToken, hmsg]
    decide

/-- C4, witness for the amended theorem: a remove whose stream dies at once
while the predicate reports the token expired. -/
theorem C4_amended_witness :
    raisedWithExpiredToken
      (azRemove "azcopy" (fun _ => false) (fun _ => true)
        (fun _ => { lines := [], midStreamError := some "process failed" })
        { storage_account := "acct", container := "cont", path := "p", sas_token := "tok" } {})
      = true :=
  C4_amended_expired_token "azcopy" (fun _ => false) (fun _ => true)
    (fun _ => { lines := [], midStreamError := some "process failed" })
    { storage_account := "acct", container := "cont", path := "p", sas_token := "tok" } {}
    "https://acct.blob.core.windows.net/cont/p?tok" "process failed"
    (by decide) rfl (by decide) (by decide)

theorem copy_summary_bridge (lines : List String) (st : CopyLoopState) :
    (lines.foldl copyLineStep st).summary
      = (lines.foldl (summStep copyUnlockTrigger id) (st.summary, st.unlock_summary)).1 :=
  congrArg Prod.fst (copy_foldl_summ lines st)

theorem sync_summary_bridge (lines : List String) (st : SyncLoopState) :
    (lines.foldl syncLineStep st).summary
      = (lines.foldl (summStep syncUnlockTrigger syncParenClean) (st.summary, st.unlock_summary)).1 :=
  congrArg Prod.fst (sync_foldl_summ lines st)

theorem remove_summary_bridge (lines : List String) (st : RemoveLoopState) :
    (lines.foldl removeLineStep st).summary
      = (lines.foldl (summStep copyUnlockTrigger id) (st.summary, st.unlock_summary)).1 :=
  congrArg Prod.fst (remove_foldl_summ lines st)

/-- C3, counterexample.  The unlock line itself is not part of the captured
summary: the append happens before the unlock flag is set within the same
iteration, so on a stream whose first line is the unlock line the buffer
holds only the following line, not the lines at-or-after the unlock line. -/
theorem C3_counterexample :
    copySummaryOf ["Job X summary\n", "tail\n"] = "tail\n"
    ∧ ("tail\n" : String) ≠ "Job X summary\n" ++ "tail\n" := by
  constructor
  · decide
  · decide

/-- C3, amended claim.  For every finite line stream, the captured summary
buffer is exactly the lines occurring strictly after the first unlock line
(the unlock line itself is appended only when it occurs again later),
appended in order, verbatim for copy and remove and with parentheses
stripped from each appended line for sync; the unlock line is the first line
that, after the per-kind normalization, starts with "Job"/"job" and contains
"summary". -/
theorem C3_amended_summary_strictly_after_unlock (lines : List String) :
    copySummaryOf lines = joinMapStr id (tailAfterFirst copyUnlockTrigger lines)
    ∧ syncSummaryOf lines = joinMapStr syncParenClean (tailAfterFirst syncUnlockTrigger lines)
    ∧ removeSummaryOf lines = joinMapStr id (tailAfterFirst copyUnlockTrigger lines) := by
  refine ⟨?_, ?_, ?_⟩
  · have hb : copySummaryOf lines
        = (lines.foldl (summStep copyUnlockTrigger id) ("", false)).1 :=
      copy_summary_bridge lines copyInitState
    rw [hb, summ_foldl_locked, str_empty_append]
  · have hb : syncSummaryOf lines
        = (lines.foldl (summStep syncUnlockTrigger syncParenClean) ("", false)).1 :=
      sync_summary_bridge lines syncInitState
    rw [hb, summ_foldl_locked, str_empty_append]
  · have hb : removeSummaryOf lines
        = (lines.foldl (summStep copyUnlockTrigger id) ("", false)).1 :=
      remove_summary_bridge lines removeInitState
    rw [hb, summ_foldl_locked, str_empty_append]

/-- C5.  After the copy, sync, or remove loop consumes a finite line stream,
percent_complete equals the float of the last line matching the anchored
percentage pattern (the initial 0.0 when no line matches); lines that do not
match the pattern, with or without a percent sign, never change it, since the
value is a function of the matching lines only. -/
theorem C5_percent_complete_is_last_match (lines : List String) :
    (lines.foldl copyLineStep copyInitState).job.percent_complete = lastPercentOf lines 0
    ∧ (lines.foldl syncLineStep syncInitState).job.percent_complete = lastPercentOf lines 0
    ∧ (lines.foldl removeLineStep removeInitState).job.percent_complete = lastPercentOf lines 0 :=
  ⟨copy_foldl_percent lines copyInitState, sync_foldl_percent lines syncInitState,
    remove_foldl_percent lines removeInitState⟩

theorem azCopy_ok_inv (exe : String) (e0 e1 : String → Bool)
    (lineSource : List String → LineStream) (src dest : AzEndpoint) (opts : AzCopyOptions)
    (j : AzCopyJobInfo) (h : azCopy exe e0 e1 lineSource src dest opts = .ok j) :
    j.completed = true
      ∧ (j.final_job_status_msg = "Completed" ∨ j.final_job_status_msg = "CompletedWithSkipped") := by
  unfold azCopy at h
  cases hs : renderEndpoint e0 src with
  | error m => rw [hs] at h; simp at h
  | ok s1 =>
    rw [hs] at h
    cases hd : renderEndpoint e0 dest with
    | error m => rw [hd] at h; simp at h
    | ok s2 =>
      rw [hd] at h
      dsimp only at h
      cases hf : copyFinalize (copyParsedInfo exe e1 lineSource src dest opts s1 s2) with
      | ok j2 =>
        rw [hf] at h
        dsimp only at h
        injection h with h
        subst h
        exact copyFinalize_ok _ _ hf
      | error j2 => rw [hf] at h; simp at h

theorem azCopy_err_inv (exe : String) (e0 e1 : String → Bool)
    (lineSource : List String → LineStream) (src dest : AzEndpoint) (opts : AzCopyOptions)
    (m : String) (j : AzCopyJobInfo)
    (h : azCopy exe e0 e1 lineSource src dest opts = .error (m, some j)) :
    j.completed = false := by
  unfold azCopy at h
  cases hs : renderEndpoint e0 src with
  | error m2 => rw [hs] at h; simp at h
  | ok s1 =>
    rw [hs] at h
    cases hd : renderEndpoint e0 dest with
    | error m2 => rw [hd] at h; simp at h
    | ok s2 =>
      rw [hd] at h
      dsimp only at h
      cases hf : copyFinalize (copyParsedInfo exe e1 lineSource src dest opts s1 s2) with
      | ok j2 => rw [hf] at h; simp at h
      | error j2 =>
        rw [hf] at h
        dsimp only at h
        injection h with h
        injection h with h1 h2
        injection h2 with h2
        subst h2
        exact copyFinalize_err _ _ hf

theorem azSync_ok_inv (exe : String) (e0 : String → Bool)
    (lineSource : List String → LineStream) (src dest : AzEndpoint) (opts : AzSyncOptions)
    (j : AzSyncJobInfo) (h : azSync exe e0 lineSource src dest opts = .ok j) :
    j.completed = true
      ∧ (j.final_job_status_msg = "Completed" ∨ j.final_job_status_msg = "CompletedWithSkipped") := by
  unfold azSync at h
  cases hs : renderEndpoint e0 src with
  | error m => rw [hs] at h; simp at h
  | ok s1 =>
    rw [hs] at h
    cases hd : renderEndpoint e0 dest with
    | error m => rw [hd] at h; simp at h
    | ok s2 =>
      rw [hd] at h
      dsimp only at h
      cases hf : syncFinalize (syncParsedInfo exe lineSource opts s1 s2) with
      | ok j2 =>
        rw [hf] at h
        dsimp only at h
        injection h with h
        subst h
        exact syncFinalize_ok _ _ hf
      | error j2 => rw [hf] at h; simp at h

theorem azSync_err_inv (exe : String) (e0 : String → Bool)
    (lineSource : List String → LineStream) (src dest : AzEndpoint) (opts : AzSyncOptions)
    (m : String) (j : AzSyncJobInfo)
    (h : azSync exe e0 lineSource src dest opts = .error (m, some j)) :
    j.completed = false := by
  unfold azSync at h
  cases hs : renderEndpoint e0 src with
  | error m2 => rw [hs] at h; simp at h
  | ok s1 =>
    rw [hs] at h
    cases hd : renderEndpoint e0 dest with
    | error m2 => rw [hd] at h; simp at h
    | ok s2 =>
      rw [hd] at h
      dsimp only at h
      cases hf : syncFinalize (syncParsedInfo exe lineSource opts s1 s2) with
      | ok j2 => rw [hf] at h; simp at h
      | error j2 =>
        rw [hf] at h
        dsimp only at h
        injection h with h
        injection h with h1 h2
        injection h2 with h2
        subst h2
        exact syncFinalize_err _ _ hf

theorem azRemove_ok_inv (exe : String) (e0 e1 : String → Bool)
    (lineSource : List String → LineStream) (loc : AzRemoteSASLocation)
    (opts : AzRemoveOptions) (j : AzRemoveJobInfo)
    (h : azRemove exe e0 e1 lineSource loc opts = .ok j) :
    j.completed = true
      ∧ (j.final_job_status_msg = "Completed" ∨ j.final_job_status_msg = "CompletedWithSkipped") := by
  unfold azRemove at h
  cases hs : azRemoteStr e0 loc with
  | error m => rw [hs] at h; simp at h
  | ok s1 =>
    rw [hs] at h
    dsimp only at h
    cases hf : removeFinalize (removeParsedInfo exe e1 lineSource loc opts s1) with
    | ok j2 =>
      rw [hf] at h
      dsimp only at h
      injection h with h
      subst h
      exact removeFinalize_ok _ _ hf
    | error j2 => rw [hf] at h; simp at h

theorem azRemove_err_inv (exe : String) (e0 e1 : String → Bool)
    (lineSource : List String → LineStream) (loc : AzRemoteSASLocation)
    (opts : AzRemoveOptions) (m : String) (j : AzRemoveJobInfo)
    (h : azRemove exe e0 e1 lineSource loc opts = .error (m, some j)) :
    j.completed = false := by
  unfold azRemove at h
  cases hs : azRemoteStr e0 loc with
  | error m2 => rw [hs] at h; simp at h
  | ok s1 =>
    rw [hs] at h
    dsimp only at h
    cases hf : removeFinalize (removeParsedInfo exe e1 lineSource loc opts s1) with
    | ok j2 => rw [hf] at h; simp at h
    | error j2 =>
      rw [hf] at h
      dsimp only at h
      injection h with h
      injection h with h1 h2
      injection h2 with h2
      subst h2
      exact removeFinalize_err _ _ hf

theorem azList_ok_inv (exe : String) (e0 : String → Bool)
    (lineSource : List String → LineStream) (loc : AzRemoteSASLocation)
    (opts : AzListOptions) (j : AzListJobInfo)
    (h : azList exe e0 lineSource loc opts = .ok j) :
    j.completed = true
      ∧ (j.final_job_status_msg = "Completed" ∨ j.final_job_status_msg = "CompletedWithSkipped") := by
  unfold azList at h
  cases hs : azRemoteStr e0 loc with
  | error m => rw [hs] at h; simp at h
  | ok s1 =>
    rw [hs] at h
    dsimp only at h
    cases hl : azListLoop {} [] (lineSource ([exe, "list", s1] ++ opts.get_options_list)).lines with
    | error j2 => rw [hl] at h; simp at h
    | ok pr =>
      rw [hl] at h
      dsimp only at h
      cases hms : (lineSource ([exe, "list", s1] ++ opts.get_options_list)).midStreamError with
      | some e => rw [hms] at h; simp at h
      | none =>
        rw [hms] at h
        dsimp only at h
        injection h with h
        subst h
        exact ⟨rfl, Or.inl rfl⟩

theorem azList_err_inv (exe : String) (e0 : String → Bool)
    (lineSource : List String → LineStream) (loc : AzRemoteSASLocation)
    (opts : AzListOptions) (m : String) (j : AzListJobInfo)
    (h : azList exe e0 lineSource loc opts = .error (m, some j)) :
    j.completed = false := by
  unfold azList at h
  cases hs : azRemoteStr e0 loc with
  | error m2 => rw [hs] at h; simp at h
  | ok s1 =>
    rw [hs] at h
    dsimp only at h
    cases hl : azListLoop {} [] (lineSource ([exe, "list", s1] ++ opts.get_options_list)).lines with
    | error j2 =>
      rw [hl] at h
      dsimp only at h
      injection h with h
      injection h with h1 h2
      injection h2 with h2
      subst h2
      rfl
    | ok pr =>
      rw [hl] at h
      dsimp only at h
      cases hms : (lineSource ([exe, "list", s1] ++ opts.get_options_list)).midStreamError with
      | none => rw [hms] at h; simp at h
      | some e =>
        rw [hms] at h
        dsimp only at h
        injection h with h
        injection h with h1 h2
        injection h2 with h2
        subst h2
        rfl

/-- C2.  For each of the four operations: a returned (not raised) JobInfo has
completed = True exactly when its final_job_status_msg is the exact string
"Completed" or the exact string "CompletedWithSkipped" (string equality, not
a prefix or substring test), and every raised path carries a JobInfo with
completed = False. -/
theorem C2_completed_iff_terminal_status :
    (∀ exe e0 e1 lineSource src dest opts (j : AzCopyJobInfo),
      azCopy exe e0 e1 lineSource src dest opts = .ok j →
        (j.completed = true
          ↔ (j.final_job_status_msg = "Completed"
              ∨ j.final_job_status_msg = "CompletedWithSkipped")))
    ∧ (∀ exe e0 e1 lineSource src dest opts m (j : AzCopyJobInfo),
      azCopy exe e0 e1 lineSource src dest opts = .error (m, some j) → j.completed = false)
    ∧ (∀ exe e0 lineSource src dest opts (j : AzSyncJobInfo),
      azSync exe e0 lineSource src dest opts = .ok j →
        (j.completed = true
          ↔ (j.final_job_status_msg = "Completed"
              ∨ j.final_job_status_msg = "CompletedWithSkipped")))
    ∧ (∀ exe e0 lineSource src dest opts m (j : AzSyncJobInfo),
      azSync exe e0 lineSource src dest opts = .error (m, some j) → j.completed = false)
    ∧ (∀ exe e0 e1 lineSource loc opts (j : AzRemoveJobInfo),
      azRemove exe e0 e1 lineSource loc opts = .ok j →
        (j.completed = true
          ↔ (j.final_job_status_msg = "Completed"
              ∨ j.final_job_status_msg = "CompletedWithSkipped")))
    ∧ (∀ exe e0 e1 lineSource loc opts m (j : AzRemoveJobInfo),
      azRemove exe e0 e1 lineSource loc opts = .error (m, some j) → j.completed = false)
    ∧ (∀ exe e0 lineSource loc opts (j : AzListJobInfo),
      azList exe e0 lineSource loc opts = .ok j →
        (j.completed = true
          ↔ (j.final_job_status_msg = "Completed"
              ∨ j.final_job_status_msg = "CompletedWithSkipped")))
    ∧ (∀ exe e0 lineSource loc opts m (j : AzListJobInfo),
      azList exe e0 lineSource loc opts = .error (m, some j) → j.completed = false) := by
  refine ⟨?_, ?_, ?_, ?_, ?_, ?_, ?_, ?_⟩
  · intro exe e0 e1 lineSource src dest opts j h
    obtain ⟨h1, h2⟩ := azCopy_ok_inv exe e0 e1 lineSource src dest opts j h
    exact iff_of_true h1 h2
  · intro exe e0 e1 lineSource src dest opts m j h
    exact azCopy_err_inv exe e0 e1 lineSource src dest opts m j h
  · intro exe e0 lineSource src dest opts j h
    obtain ⟨h1, h2⟩ := azSync_ok_inv exe e0 lineSource src dest opts j h
    exact iff_of_true h1 h2
  · intro exe e0 lineSource src dest opts m j h
    exact azSync_err_inv exe e0 lineSource src dest opts m j h
  · intro exe e0 e1 lineSource loc opts j h
    obtain ⟨h1, h2⟩ := azRemove_ok_inv exe e0 e1 lineSource loc opts j h
    exact iff_of_true h1 h2
  · intro exe e0 e1 lineSource loc opts m j h
    exact azRemove_err_inv exe e0 e1 lineSource loc opts m j h
  · intro exe e0 lineSource loc opts j h
    obtain ⟨h1, h2⟩ := azList_ok_inv exe e0 lineSource loc opts j h
    exact iff_of_true h1 h2
  · intro exe e0 lineSource loc opts m j h
    exact azList_err_inv exe e0 lineSource loc opts m j h

/-- C2, witness: the returned-path conjunct applied to a concrete completing
copy run, and the raised-path conjunct applied to a concrete failing copy
run. -/
theorem C2_witness :
    (({ final_job_status_msg := "Completed", completed := true } : AzCopyJobInfo).completed = true
      ↔ (({ final_job_status_msg := "Completed", completed := true }
            : AzCopyJobInfo).final_job_status_msg = "Completed"
          ∨ ({ final_job_status_msg := "Completed", completed := true }
              : AzCopyJobInfo).final_job_status_msg = "CompletedWithSkipped"))
    ∧ ({ error_msg := "; Error while transferring data", completed := false }
        : AzCopyJobInfo).completed = false :=
  ⟨C2_completed_iff_terminal_status.1 "azcopy" (fun _ => false) (fun _ => false)
      (fun _ => { lines := ["Final Job Status: Completed\n"] })
      (.localLoc { path := "/a" }) (.localLoc { path := "/b" }) {} _ (by decide),
    C2_completed_iff_terminal_status.2.1 "azcopy" (fun _ => false) (fun _ => false)
      (fun _ => { lines := [] })
      (.localLoc { path := "/a" }) (.localLoc { path := "/b" }) {}
      "; Error while transferring data" _ (by decide)⟩

/-- C6.  Json-mode list runs exercising every decode rule.  First, the
claim's own scenario: a ListObject line contributes its MessageContent
re-decoded as JSON, the EndOfJob object yields no item, and a non-JSON line
is skipped without raising, so items is exactly the object with name
"a.txt".  Second, a run with an additional object of another MessageType,
which is appended verbatim; both calls return (no raise) with
completed = True. -/
theorem C6_list_json_items_decoding :
    azList "azcopy" (fun _ => false)
        (fun _ => { lines :=
          ["\x7b\"MessageType\":\"ListObject\",\"MessageContent\":\"\x7b\\\"name\\\":\\\"a.txt\\\"\x7d\"\x7d\n",
           "\x7b\"MessageType\":\"EndOfJob\"\x7d\n",
           "not json\n"] })
        { storage_account := "acc", container := "con", path := "p", sas_token := "tok" }
        { output_type := "json" }
      = .ok { error_msg := "",
              final_job_status_msg := "Completed",
              completed := true,
              output_text := "\x7b\"MessageType\":\"ListObject\",\"MessageContent\":\"\x7b\\\"name\\\":\\\"a.txt\\\"\x7d\"\x7d\n\x7b\"MessageType\":\"EndOfJob\"\x7d\nnot json",
              items := [PyJson.obj [("name", PyJson.str "a.txt")]] }
    ∧ azList "azcopy" (fun _ => false)
        (fun _ => { lines :=
          ["\x7b\"MessageType\":\"ListObject\",\"MessageContent\":\"\x7b\\\"name\\\":\\\"a.txt\\\"\x7d\"\x7d\n",
           "\x7b\"MessageType\":\"Progress\",\"x\":\"y\"\x7d\n",
           "\x7b\"MessageType\":\"EndOfJob\"\x7d\n",
           "not json\n"] })
        { storage_account := "acc", container := "con", path := "p", sas_token := "tok" }
        { output_type := "json" }
      = .ok { error_msg := "",
              final_job_status_msg := "Completed",
              completed := true,
              output_text := "\x7b\"MessageType\":\"ListObject\",\"MessageContent\":\"\x7b\\\"name\\\":\\\"a.txt\\\"\x7d\"\x7d\n\x7b\"MessageType\":\"Progress\",\"x\":\"y\"\x7d\n\x7b\"MessageType\":\"EndOfJob\"\x7d\nnot json",
              items := [PyJson.obj [("name", PyJson.str "a.txt")],
                        PyJson.obj [("MessageType", PyJson.str "Progress"),
                                    ("x", PyJson.str "y")]] } := by
  exact ⟨rfl, rfl⟩

/-- C7.  The first line containing "AuthenticationFailed" makes the list call
raise immediately with that full line as error_msg and completed = False (its
output_text is still the empty default, so no line contributes to it), and
consumption halts there: the result does not depend on the lines after the
authentication failure nor on any later stream failure. -/
theorem C7_auth_line_aborts_list (exe : String) (e0 : String → Bool)
    (loc : AzRemoteSASLocation) (opts : AzListOptions) (loc_str : String)
    (pre post : List String) (l : String) (me : Option String)
    (hr : azRemoteStr e0 loc = .ok loc_str)
    (hpre : ∀ x ∈ pre, strContains x "AuthenticationFailed" = false)
    (hl : strContains l "AuthenticationFailed" = true) :
    azList exe e0 (fun _ => { lines := pre ++ l :: post, midStreamError := me }) loc opts
      = .error (l, some { error_msg := l, completed := false })
    ∧ azList exe e0 (fun _ => { lines := pre ++ l :: post, midStreamError := me }) loc opts
      = azList exe e0 (fun _ => { lines := pre ++ [l], midStreamError := none }) loc opts := by
  have key : ∀ (me2 : Option String) (post2 : List String),
      azList exe e0 (fun _ => { lines := pre ++ l :: post2, midStreamError := me2 }) loc opts
        = .error (l, some { error_msg := l, completed := false }) := by
    intro me2 post2
    unfold azList
    rw [hr]
    dsimp only
    rw [azListLoop_auth {} [] pre post2 l hpre hl]
  exact ⟨key me post, (key me post).trans (key none []).symm⟩

/-- C7, witness at a concrete stream with one clean line before the
authentication failure and one line after it. -/
theorem C7_witness :
    azList "azcopy" (fun _ => false)
        (fun _ => { lines := ["ok line\n", "Error: AuthenticationFailed on request\n", "after\n"],
                    midStreamError := none })
        { storage_account := "acc", container := "con", path := "p", sas_token := "tok" } {}
      = .error ("Error: AuthenticationFailed on request\n",
          some { error_msg := "Error: AuthenticationFailed on request\n", completed := false }) :=
  (C7_auth_line_aborts_list "azcopy" (fun _ => false)
    { storage_account := "acc", container := "con", path := "p", sas_token := "tok" } {}
    "https://acc.blob.core.windows.net/con/p?tok"
    ["ok line\n"] ["after\n"] "Error: AuthenticationFailed on request\n" none
    (by decide) (by decide) (by decide)).1

/-- C8, counterexample.  The expiry check in both the constructor and the
stringification is guarded by a nonempty-token test, so with the empty token
and a predicate that reports every token (the empty one included) as
expired, the location is still constructed and still renders to a URL
string: no exception is raised although the predicate returns true. -/
theorem C8_counterexample :
    azRemoteSASLocationInit (fun _ => true) "acct" "cont" "p" false "" none
      = .ok { storage_account := "acct", container := "cont", path := "p",
              use_wildcard := false, sas_token := "", location_type := none }
    ∧ azRemoteStr (fun _ => true)
        { storage_account := "acct", container := "cont", path := "p",
          use_wildcard := false, sas_token := "", location_type := none }
      = .ok "https://acct.blob.core.windows.net/cont/p?"
    ∧ (fun (_ : String) => true) "" = true := by
  refine ⟨by decide, by decide, rfl⟩

/-- C8, amended claim.  For every nonempty SAS token that the expiry
predicate reports as expired, both constructing the location and rendering
it to a string raise "SAS token is expired" instead of returning; the check
is simply skipped when the token is the empty string. -/
theorem C8_amended_nonempty_expired_raises (expired : String → Bool)
    (storage_account container path : String) (use_wildcard : Bool) (sas_token : String)
    (location_type : Option String)
    (hlen : 0 < sas_token.length) (hexp : expired sas_token = true) :
    azRemoteSASLocationInit expired storage_account container path use_wildcard sas_token
        location_type = .error "SAS token is expired"
    ∧ ∀ loc : AzRemoteSASLocation, loc.sas_token = sas_token →
        azRemoteStr expired loc = .error "SAS token is expired" := by
  constructor
  · unfold azRemoteSASLocationInit
    rw [if_pos hlen, if_pos hexp]
  · intro loc hl
    unfold azRemoteStr
    rw [hl, if_pos hlen, if_pos hexp]

/-- C8, witness for the amended theorem at a concrete nonempty expired
token. -/
theorem C8_amended_witness :
    azRemoteSASLocationInit (fun _ => true) "a" "c" "p" false "tk" none
      = .error "SAS token is expired"
    ∧ azRemoteStr (fun _ => true)
        { storage_account := "a", container := "c", path := "p", use_wildcard := false,
          sas_token := "tk", location_type := none } = .error "SAS token is expired" :=
  ⟨(C8_amended_nonempty_expired_raises (fun _ => true) "a" "c" "p" false "tk" none
      (by decide) rfl).1,
    (C8_amended_nonempty_expired_raises (fun _ => true) "a" "c" "p" false "tk" none
      (by decide) rfl).2 _ rfl⟩

/-- C9.  When the local side of a sync does not exist on disk (the
filesystem is the external pathExists predicate), the facade raises its
precondition message before anything else happens: the result is this fixed
error for every line source, so the external process is never consulted and
no JobInfo is produced. -/
theorem C9_sync_requires_existing_local_path :
    (∀ pathExists exe e0 lineSource src dest opts, pathExists dest.path = false →
      syncToLocalLocation pathExists exe e0 lineSource src dest opts
        = .error (dest.path ++ " does not exist. For sync operation, the given path needs to exist",
            none))
    ∧ (∀ pathExists exe e0 lineSource src dest opts, pathExists src.path = false →
      syncToRemoteLocation pathExists exe e0 lineSource src dest opts
        = .error (src.path ++ " does not exist. For sync operation, the given path needs to exist",
            none)) := by
  constructor
  · intro pathExists exe e0 lineSource src dest opts h
    unfold syncToLocalLocation
    rw [if_neg (by simp [h])]
  · intro pathExists exe e0 lineSource src dest opts h
    unfold syncToRemoteLocation
    rw [if_neg (by simp [h])]

/-- C9, witness at a concrete missing destination path. -/
theorem C9_witness :
    syncToLocalLocation (fun _ => false) "azcopy" (fun _ => false) (fun _ => { lines := [] })
        {} { path := "/data" } {}
      = .error ("/data does not exist. For sync operation, the given path needs to exist", none) :=
  C9_sync_requires_existing_local_path.1 (fun _ => false) "azcopy" (fun _ => false)
    (fun _ => { lines := [] }) {} { path := "/data" } {} rfl

/-- C10.  remove_directory_recursive forces recursive = True on the caller's
options object before _remove runs (explicit state passing models the
in-place mutation): the options object handed back to the caller is the
original with recursive = True whether or not the remove raises, its option
list therefore emits "--recursive", and the remove itself runs with that
mutated object. -/
theorem C10_remove_directory_recursive_mutation (exe : String) (e0 e1 : String → Bool)
    (lineSource : List String → LineStream) (loc : AzRemoteSASLocation)
    (opts : AzRemoveOptions) :
    (removeDirectoryRecursive exe e0 e1 lineSource loc opts).2 = { opts with recursive := true }
    ∧ (removeDirectoryRecursive exe e0 e1 lineSource loc opts).2.recursive = true
    ∧ "--recursive" ∈ ((removeDirectoryRecursive exe e0 e1 lineSource loc opts).2).get_options_list
    ∧ (removeDirectoryRecursive exe e0 e1 lineSource loc opts).1
        = azRemove exe e0 e1 lineSource loc { opts with recursive := true } := by
  refine ⟨rfl, rfl, ?_, rfl⟩
  show "--recursive" ∈ AzRemoveOptions.get_options_list { opts with recursive := true }
  simp [AzRemoveOptions.get_options_list]
